import Mathlib

/-!
Verification of the analysis-request orchestration of the TradeCopilot
repository (serverless `analyze` handlers). The repository contains several
near-identical handler variants; the two that carry the interesting logic are
`src/analyze-improved.ts` (called "improved" below) and the variant stored as
`src/unnamed/part_004` (called "part004" below; its `buildSystemPrompt` also
appears verbatim in `src/supabase/functions/analyze/index.ts`).

The embedding models:
  * JSON values as produced by `JSON.parse` (`Json`), with JavaScript object
    semantics for property lookup, truthiness and assignment;
  * the response-normalization steps of both handlers, including their
    strict-mode behaviour on non-object parse results;
  * the system-prompt builders, message assembly, model selection, the
    memory-table queries, and the request/response shape of both handlers.

`JSON.parse` itself is treated as an oracle: a raw string together with an
`Option Json` parse outcome (`none` = the parse threw).
-/

/-- JSON values as produced by `JSON.parse`. Numbers are modelled as integers
(no claim depends on non-integral numerics). Objects are ordered field lists,
mirroring JavaScript property order; parse results are assumed duplicate-free,
as `JSON.parse` keeps a single entry per key. -/
inductive Json where
  | null
  | bool (b : Bool)
  | num (n : Int)
  | str (s : String)
  | arr (elems : List Json)
  | obj (fields : List (String × Json))

/-- JavaScript `hasOwnProperty` on a plain object's field list. -/
def hasKey (fields : List (String × Json)) (k : String) : Bool :=
  fields.any (fun f => f.1 == k)

/-- JavaScript property read on a plain object's field list. -/
def getField (fields : List (String × Json)) (k : String) : Option Json :=
  match fields with
  | [] => none
  | (k', v) :: rest => if k' == k then some v else getField rest k

/-- JavaScript property assignment `o[k] = v`: overwrites in place, otherwise
appends (new properties come last in insertion order). -/
def setField (fields : List (String × Json)) (k : String) (v : Json) :
    List (String × Json) :=
  match fields with
  | [] => [(k, v)]
  | (k', v') :: rest =>
    if k' == k then (k, v) :: rest else (k', v') :: setField rest k v

/-- JavaScript truthiness of a property-read result (`none` = `undefined`). -/
def jsTruthy : Option Json → Bool
  | none => false
  | some Json.null => false
  | some (Json.bool b) => b
  | some (Json.num n) => n != 0
  | some (Json.str s) => s != ""
  | some (Json.arr _) => true
  | some (Json.obj _) => true

/-- The parse-failure fallback object of `src/analyze-improved.ts`
(lines 188-191). -/
def improvedParseFallback : List (String × Json) :=
  [("narrative",
    Json.str "I\x27m having trouble with response formatting. Please try again."),
   ("memory_hint", Json.str "User experienced parsing issues with AI response")]

/-- Sentinel back-filled by `src/analyze-improved.ts` line 196 when the parsed
object lacks a `memory_hint` property. -/
def improvedMemoryHintDefault : String :=
  "No specific trading insight from this interaction"

/-- Normalization step of `src/analyze-improved.ts` lines 182-198: parse the
raw completion text (`parsed` is the `JSON.parse` outcome, `none` = threw),
fall back to `improvedParseFallback` on failure, then back-fill `memory_hint`
via `hasOwnProperty`. Branches mirror strict-mode JavaScript: on a parsed
`null` the `hasOwnProperty` call itself throws; on another primitive the
subsequent property assignment throws; on an array the assignment creates an
expando property that `JSON.stringify` later drops, so the array is returned
unchanged. -/
def improvedNormalize (parsed : Option Json) : Except String Json :=
  let feedback := match parsed with
    | some j => j
    | none => Json.obj improvedParseFallback
  match feedback with
  | Json.obj fields =>
    if hasKey fields "memory_hint" then Except.ok (Json.obj fields)
    else Except.ok
      (Json.obj (fields ++ [("memory_hint", Json.str improvedMemoryHintDefault)]))
  | Json.arr elems => Except.ok (Json.arr elems)
  | Json.null =>
    Except.error "TypeError: Cannot read properties of null (reading hasOwnProperty)"
  | _ =>
    Except.error "TypeError: Cannot create property memory_hint on primitive value"

/-- The parse-failure fallback object of `src/unnamed/part_004` lines 182-188.
Note: it has no `memory_hint` field. -/
def part004ParseFallback (rawContent : String) : List (String × Json) :=
  [("narrative", Json.str rawContent),
   ("confluences", Json.arr []),
   ("risks", Json.arr []),
   ("scenarios", Json.obj
     [("bull", Json.str ""), ("bear", Json.str ""), ("invalidation", Json.str "")]),
   ("checklist", Json.arr [])]

/-- Normalization step of `src/unnamed/part_004` lines 176-196: parse, fall
back to `part004ParseFallback rawContent` on failure, then back-fill
`narrative` with the raw text when falsy (`if (!feedback.narrative)`). The
disclaimer step was removed from this handler (comment at line 191). Strict
mode: property read on a parsed `null` throws; assignment on another primitive
throws; an array survives (expando dropped by `JSON.stringify`). -/
def part004Normalize (rawContent : String) (parsed : Option Json) :
    Except String Json :=
  let feedback := match parsed with
    | some j => j
    | none => Json.obj (part004ParseFallback rawContent)
  match feedback with
  | Json.obj fields =>
    if jsTruthy (getField fields "narrative") then Except.ok (Json.obj fields)
    else Except.ok (Json.obj (setField fields "narrative" (Json.str rawContent)))
  | Json.arr elems => Except.ok (Json.arr elems)
  | Json.null =>
    Except.error "TypeError: Cannot read properties of null (reading narrative)"
  | _ =>
    Except.error "TypeError: Cannot create property narrative on primitive value"

/-- A row of the `public.memories` table (migration
`20250912200024_…​.sql` lines 43-49): `kind` and `content` are nullable TEXT,
`created_at` is modelled as a natural timestamp. -/
structure MemoryRow where
  user_id : String
  kind : Option String
  content : Option String
  created_at : Nat
deriving DecidableEq

/-- JavaScript template-literal rendering of a nullable column:
`null` prints as the string "null". -/
def jsShowNullable : Option String → String
  | some s => s
  | none => "null"

/-- Insert into a list sorted by `created_at` descending (stable). -/
def insertByCreatedDesc (r : MemoryRow) : List MemoryRow → List MemoryRow
  | [] => [r]
  | x :: xs =>
    if r.created_at > x.created_at then r :: x :: xs
    else x :: insertByCreatedDesc r xs

/-- `ORDER BY created_at DESC` over the memories table. -/
def sortByCreatedDesc : List MemoryRow → List MemoryRow
  | [] => []
  | r :: rs => insertByCreatedDesc r (sortByCreatedDesc rs)

/-- The memories query of `src/unnamed/part_004` lines 94-98:
`from('memories').select('kind, content').order('created_at', descending)
.limit(10)` — note the absence of any `eq('user_id', …)` filter. -/
def part004MemoriesQuery (memTable : List MemoryRow) : List MemoryRow :=
  (sortByCreatedDesc memTable).take 10

/-- Formatting of a fetched row in `src/unnamed/part_004` line 103:
`(${m.kind}) ${m.content}`. -/
def part004FormatMemory (r : MemoryRow) : String :=
  "(" ++ jsShowNullable r.kind ++ ") " ++ jsShowNullable r.content

/-- JavaScript truthiness of an optional string (used for `conversationId`
gates and the `content` filter). -/
def optTruthy : Option String → Bool
  | some s => s != ""
  | none => false

/-- Memory loading of `src/unnamed/part_004` lines 87-109: gated by
`useMemory && conversationId`, fetches the 10 globally most recent rows
without filtering on the requesting user. -/
def part004LoadMemories (memTable : List MemoryRow) (useMemory : Bool)
    (conversationId : Option String) : List String :=
  if useMemory && optTruthy conversationId then
    (part004MemoriesQuery memTable).map part004FormatMemory
  else []

/-- The memories query of `src/analyze-improved.ts` lines 76-81: filtered by
the conversation owner's `user_id`, newest first, limit 5. -/
def improvedMemoriesQuery (memTable : List MemoryRow) (uid : String) :
    List MemoryRow :=
  (sortByCreatedDesc (memTable.filter (fun r => r.user_id == uid))).take 5

/-- Post-processing of `src/analyze-improved.ts` lines 84-86:
`.filter(m => m.content).map(m => m.content!)`. -/
def improvedMemoriesOf (memTable : List MemoryRow) (uid : String) :
    List String :=
  ((improvedMemoriesQuery memTable uid).filter
    (fun r => optTruthy r.content)).map (fun r => r.content.getD "")

/-- A row of the `user_settings` table as read by `src/analyze-improved.ts`
(free-text descriptor columns are nullable; `remember_patterns` is a nullable
boolean defaulting to true). -/
structure SettingsRow where
  trading_experience : Option String
  trading_style : Option String
  risk_level : Option String
  remember_patterns : Option Bool
deriving DecidableEq

/-- JavaScript `x || dflt` on a nullable string column: null, undefined and
the empty string all fall back to the default. -/
def jsOrStr (v : Option String) (dflt : String) : String :=
  match v with
  | some s => if s == "" then dflt else s
  | none => dflt

/-- JavaScript `Array.prototype.join("\n")`. -/
def joinNL : List String → String
  | [] => ""
  | [s] => s
  | s :: rest => s ++ "\n" ++ joinNL rest

/-- Opening of the full-analysis prompt of `buildSystemPrompt`
(`src/unnamed/part_004` lines 13-19, identical in
`src/supabase/functions/analyze/index.ts`). -/
def analysisBasePrompt : String :=
  "You are an experienced trading coach and mentor. Respond in a natural, conversational way like you\x27re chatting with a fellow trader over coffee.\n\nThe user may share screenshots, stats, notes, news, or free-form thoughts. Treat every message as part of an ongoing conversation.\n\nYour role: act like a seasoned mentor who\x27s been in the markets for years. Be direct, honest, and supportive. Share insights, point out risks, and discuss scenarios naturally. Add coaching notes about psychology or performance when it feels right.\n\nNever promise profit or certainty. If unclear, ask for clarification."

/-- Memory recap header used in `buildSystemPrompt` (part_004 lines 22, 48). -/
def memoryRecapHeader : String :=
  "\n\nWhat I know about your trading style:\n"

/-- The bulleted memory recap of `buildSystemPrompt`:
`memories.map(m => `- ${m}`).join('\n')` after the header. -/
def memoryRecap (memories : List String) : String :=
  memoryRecapHeader ++ joinNL (memories.map (fun m => "- " ++ m))

/-- Structured-response instruction of the full-analysis branch
(part_004 lines 25-38). -/
def analysisSchemaPrompt : String :=
  "\n\nProvide both a natural conversational response AND structured analysis. Respond with a JSON object:\n\x7b\n  \"narrative\": \"Main conversational feedback (always required)\",\n  \"confluences\": [\"Technical confluences or positive signals if any\"] (optional),\n  \"risks\": [\"Key risks or concerns to watch\"] (optional),\n  \"scenarios\": \x7b\n    \"bull\": \"Bullish scenario description\",\n    \"bear\": \"Bearish scenario description\", \n    \"invalidation\": \"What would invalidate the current setup\"\n  \x7d (optional),\n  \"checklist\": [\"3-5 actionable next steps\"] (optional),\n  \"psychology_hint\": \"Optional mindset or psychology coaching note\",\n  \"memory_hint\": \"Optional note about patterns or style observations\"\n\x7d"

/-- Opening of the quick-chat prompt (part_004 lines 41-45). -/
def quickBasePrompt : String :=
  "You are an experienced trading coach and mentor. Respond in a natural, conversational way like you\x27re chatting with a fellow trader.\n\nBe direct, friendly, and supportive. Keep responses concise but helpful. Share quick insights or ask follow-up questions. Act like you\x27re having a casual conversation about trading.\n\nNever promise profit or certainty."

/-- Minimal-schema instruction of the quick-chat branch
(part_004 lines 51-55). -/
def quickSchemaPrompt : String :=
  "\n\nRespond with a JSON object containing only:\n\x7b\n  \"narrative\": \"Natural conversational response\",\n  \"memory_hint\": \"Optional note about patterns or style observations\"\n\x7d"

/-- `buildSystemPrompt` of `src/unnamed/part_004` lines 10-59 (and verbatim in
`src/supabase/functions/analyze/index.ts` lines 10-59). -/
def buildSystemPrompt (memories : List String) (requestAnalysis : Bool) :
    String :=
  if requestAnalysis then
    (if memories.length > 0 then analysisBasePrompt ++ memoryRecap memories
     else analysisBasePrompt) ++ analysisSchemaPrompt
  else
    (if memories.length > 0 then quickBasePrompt ++ memoryRecap memories
     else quickBasePrompt) ++ quickSchemaPrompt

/-- Fixed opening of the system prompt of `src/analyze-improved.ts` line 97. -/
def improvedCoachIntro : String := "You are an experienced trading coach. "

/-- Personalization sentence of `src/analyze-improved.ts` line 101, appended
only when a `user_settings` row was loaded; each column falls back
per-field via `||`. -/
def improvedSettingsSentence (s : SettingsRow) : String :=
  "You\x27re working with a " ++ jsOrStr s.trading_experience "intermediate" ++
  " trader who prefers " ++ jsOrStr s.trading_style "day trading" ++
  " with " ++ jsOrStr s.risk_level "moderate" ++ " risk tolerance. "

/-- Lines 97-102 of `src/analyze-improved.ts`: intro plus, when settings were
loaded, the personalization sentence. -/
def improvedPersonaPart (userSettings : Option SettingsRow) : String :=
  match userSettings with
  | some s => improvedCoachIntro ++ improvedSettingsSentence s
  | none => improvedCoachIntro

/-- Memory block of `src/analyze-improved.ts` line 106. -/
def improvedMemoryRecap (memories : List String) : String :=
  "\n\nWhat you remember about this trader:\n" ++
  joinNL (memories.map (fun m => "- " ++ m)) ++ "\n\n"

/-- Detailed-analysis response-format instruction of `src/analyze-improved.ts`
lines 111-120. -/
def improvedDetailedSchema : String :=
  "Provide detailed trading analysis. Always respond with valid JSON:\n\x7b\n  \"narrative\": \"Your detailed trading analysis and advice\",\n  \"confluences\": [\"Positive technical signals if any\"],\n  \"risks\": [\"Key risks to watch\"],\n  \"scenarios\": \x7b\"bull\": \"Bullish scenario\", \"bear\": \"Bearish scenario\", \"invalidation\": \"What invalidates the setup\"\x7d,\n  \"checklist\": [\"Action items for the trader\"],\n  \"psychology_hint\": \"Trading psychology insight if relevant\",\n  \"memory_hint\": \"Key insight about this trader\x27s style/preferences to remember - ALWAYS include this field\"\n\x7d"

/-- Quick-chat response-format instruction of `src/analyze-improved.ts`
lines 122-127. -/
def improvedQuickSchema : String :=
  "Provide conversational trading advice. Always respond with valid JSON:\n\x7b\n  \"narrative\": \"Your conversational trading advice\",\n  \"memory_hint\": \"Key insight about this trader\x27s style/preferences to remember - ALWAYS include this field\"\n\x7d"

/-- Hard requirement appended at `src/analyze-improved.ts` line 129. -/
def improvedCriticalSuffix : String :=
  "\n\nCRITICAL: Always include the memory_hint field. Use null if no specific insight."

/-- System prompt assembly of `src/analyze-improved.ts` lines 96-129. -/
def improvedSystemPrompt (userSettings : Option SettingsRow)
    (memories : List String) (requestAnalysis : Bool) : String :=
  let p1 := improvedPersonaPart userSettings
  let p2 := if memories.length > 0 then p1 ++ improvedMemoryRecap memories else p1
  let p3 := p2 ++
    (if requestAnalysis then improvedDetailedSchema else improvedQuickSchema)
  p3 ++ improvedCriticalSuffix

/-- One part of a multi-part chat message (the `detail: "high"` constant on
image parts is invariant and omitted). -/
inductive ContentPart where
  | text (s : String)
  | imageUrl (url : String)

/-- Chat-message content: a plain string or a parts array. -/
inductive MessageContent where
  | plain (s : String)
  | parts (ps : List ContentPart)

/-- A message of the outbound `messages` array. -/
structure ChatMessage where
  role : String
  content : MessageContent

/-- `contextText || "Analyze this trading setup"` of
`src/analyze-improved.ts` line 135. -/
def improvedCurrentMessage (contextText : String) : String :=
  if contextText == "" then "Analyze this trading setup" else contextText

/-- Message assembly of `src/analyze-improved.ts` lines 131-152: system prompt
plus one user turn; when images are present, only `imageUrls[0]` is attached. -/
def improvedMessages (systemPrompt : String) (contextText : String)
    (imageUrls : List String) : List ChatMessage :=
  let currentMessage := improvedCurrentMessage contextText
  [⟨"system", MessageContent.plain systemPrompt⟩] ++
  (match imageUrls with
   | [] => [⟨"user", MessageContent.plain currentMessage⟩]
   | u :: _ =>
     [⟨"user", MessageContent.parts
        [ContentPart.text currentMessage, ContentPart.imageUrl u]⟩])

/-- Message assembly of `src/unnamed/part_004` lines 118-145: system prompt,
an optional text turn, then one user turn per image URL. -/
def part004Messages (systemPrompt : String) (contextText : String)
    (imageUrls : List String) : List ChatMessage :=
  [⟨"system", MessageContent.plain systemPrompt⟩] ++
  (if contextText != "" then
    [⟨"user", MessageContent.plain contextText⟩] else []) ++
  imageUrls.map (fun u =>
    ⟨"user", MessageContent.parts
      [ContentPart.text "Attached image for analysis:", ContentPart.imageUrl u]⟩)

/-- Image URLs occurring in a parts array, in order. -/
def partImages : List ContentPart → List String
  | [] => []
  | ContentPart.imageUrl u :: rest => u :: partImages rest
  | ContentPart.text _ :: rest => partImages rest

/-- Image URLs occurring in one chat message. -/
def messageImages (m : ChatMessage) : List String :=
  match m.content with
  | MessageContent.plain _ => []
  | MessageContent.parts ps => partImages ps

/-- All image URLs of an outbound messages array, in order. -/
def imagesOf (msgs : List ChatMessage) : List String :=
  msgs.foldr (fun m acc => messageImages m ++ acc) []

/-- Model selection of `src/analyze-improved.ts` line 163:
`imageUrls?.length ? 'gpt-4o' : 'gpt-4o-mini'`. -/
def improvedModel (imageUrls : List String) : String :=
  if imageUrls.length != 0 then "gpt-4o" else "gpt-4o-mini"

/-- Model selection of `src/unnamed/part_004` lines 112-114: a single fixed
model regardless of image presence (`hasImages` is computed but used only for
logging). -/
def part004Model : String := "gpt-4.1-2025-04-14"

/-- The orchestrator's request body
`{imageUrls?, contextText?, conversationId?, requestAnalysis?, useMemory?}`;
absent `imageUrls`/`contextText` are modelled as `[]`/`""` (identical
truthiness in the handlers). -/
structure AnalyzeRequest where
  imageUrls : List String
  contextText : String
  conversationId : Option String
  requestAnalysis : Bool
  useMemory : Bool
deriving DecidableEq

/-- Outcome of the single `fetch` to the completion provider, with the parse
oracle for `JSON.parse(rawContent)`. -/
structure ProviderResult where
  ok : Bool
  status : Nat
  errorText : String
  rawContent : String
  parsed : Option Json

/-- External world of one request: configuration, database lookup outcomes and
the provider outcome. `convUser` is the `conversations` lookup result,
`settingsRow` the `user_settings` single-row result for that user. -/
structure Env where
  hasApiKey : Bool
  memTable : List MemoryRow
  convUser : Option String
  settingsRow : Option SettingsRow
  provider : ProviderResult
  latency : Nat

/-- The outbound completion request (constant fields `temperature` and
`response_format: json_object` omitted as invariant). -/
structure OutboundRequest where
  model : String
  messages : List ChatMessage
  maxTokens : Nat

/-- An HTTP-style response of a handler. -/
structure HttpResponse where
  status : Nat
  body : Json

/-- Result of one handler run: the provider call made (if any) and the
response returned. -/
structure HandlerResult where
  request : Option OutboundRequest
  response : HttpResponse

/-- Number of completion-provider calls of a handler run. -/
def providerCalls (h : HandlerResult) : Nat :=
  match h.request with
  | some _ => 1
  | none => 0

/-- Settings actually loaded by `src/analyze-improved.ts` lines 36-72: only
when `conversationId && useMemory` and the conversation lookup succeeded. -/
def improvedLoadedSettings (env : Env) (req : AnalyzeRequest) :
    Option SettingsRow :=
  if optTruthy req.conversationId && req.useMemory then
    match env.convUser with
    | some _ => env.settingsRow
    | none => none
  else none

/-- Memories actually loaded by `src/analyze-improved.ts` lines 74-89: gated
by `userSettings?.remember_patterns !== false` (so also loaded when no
settings row exists or the column is null). -/
def improvedLoadedMemories (env : Env) (req : AnalyzeRequest) : List String :=
  if optTruthy req.conversationId && req.useMemory then
    match env.convUser with
    | some uid =>
      match env.settingsRow with
      | some s =>
        if s.remember_patterns == some false then []
        else improvedMemoriesOf env.memTable uid
      | none => improvedMemoriesOf env.memTable uid
    | none => []
  else []

/-- System prompt produced by a `src/unnamed/part_004` run. -/
def part004SystemPromptOf (env : Env) (req : AnalyzeRequest) : String :=
  buildSystemPrompt
    (part004LoadMemories env.memTable req.useMemory req.conversationId)
    req.requestAnalysis

/-- Body of the try block of `src/unnamed/part_004` lines 67-203: validation,
API-key check, memory load, prompt and message assembly, the provider call and
normalization. Returns the provider call made (if any) and either the
normalized feedback or the thrown error's message. -/
def part004Pipeline (env : Env) (req : AnalyzeRequest) :
    Option OutboundRequest × Except String Json :=
  if req.imageUrls.length = 0 && req.contextText = "" then
    (none, Except.error "Either imageUrls or contextText must be provided")
  else if !env.hasApiKey then
    (none, Except.error "OpenAI API key not configured")
  else
    let systemPrompt := part004SystemPromptOf env req
    let messages := part004Messages systemPrompt req.contextText req.imageUrls
    let outbound : OutboundRequest := ⟨part004Model, messages, 2000⟩
    if !env.provider.ok then
      (some outbound, Except.error
        ("OpenAI API error: " ++ toString env.provider.status ++ " " ++
          env.provider.errorText))
    else
      (some outbound, part004Normalize env.provider.rawContent env.provider.parsed)

/-- The fixed apology narrative of the part_004 catch-all (line 210). -/
def part004ApologyNarrative : String :=
  "I apologize, but I encountered an error while analyzing your request. Please try again or contact support if the issue persists."

/-- Safe-default feedback of the part_004 catch-all (lines 209-215). -/
def part004ErrorFields : List (String × Json) :=
  [("narrative", Json.str part004ApologyNarrative),
   ("confluences", Json.arr []),
   ("risks", Json.arr [Json.str "Technical analysis temporarily unavailable"]),
   ("scenarios", Json.obj
     [("bull", Json.str ""), ("bear", Json.str ""), ("invalidation", Json.str "")]),
   ("checklist", Json.arr [Json.str "Try submitting your analysis request again"])]

/-- The `serve` handler of `src/unnamed/part_004`: wraps the pipeline, turning
success into `{feedback, latency_ms}` with status 200 and any thrown error
into the fixed-shape `{error, feedback}` body with status 500. -/
def part004Handler (env : Env) (req : AnalyzeRequest) : HandlerResult :=
  match part004Pipeline env req with
  | (call, Except.ok feedback) =>
    ⟨call, ⟨200, Json.obj
      [("feedback", feedback), ("latency_ms", Json.num (env.latency : Int))]⟩⟩
  | (call, Except.error msg) =>
    ⟨call, ⟨500, Json.obj
      [("error", Json.str msg), ("feedback", Json.obj part004ErrorFields)]⟩⟩

/-- Body of the try block of `src/analyze-improved.ts` lines 16-207: API-key
check (no input validation), best-effort personalization load, prompt and
message assembly, the provider call and normalization. -/
def improvedPipeline (env : Env) (req : AnalyzeRequest) :
    Option OutboundRequest × Except String Json :=
  if !env.hasApiKey then
    (none, Except.error "OpenAI API key not configured")
  else
    let userSettings := improvedLoadedSettings env req
    let memories := improvedLoadedMemories env req
    let systemPrompt := improvedSystemPrompt userSettings memories req.requestAnalysis
    let messages := improvedMessages systemPrompt req.contextText req.imageUrls
    let outbound : OutboundRequest :=
      ⟨improvedModel req.imageUrls, messages,
        if req.requestAnalysis then 1500 else 500⟩
    if !env.provider.ok then
      (some outbound, Except.error
        ("OpenAI API error: " ++ toString env.provider.status))
    else
      (some outbound, improvedNormalize env.provider.parsed)

/-- Safe-default feedback of the analyze-improved catch-all (lines 211-216):
its narrative is "Error occurred: " followed by the error message, not a fixed
apology. -/
def improvedErrorFields (msg : String) : List (String × Json) :=
  [("narrative", Json.str ("Error occurred: " ++ msg)),
   ("memory_hint", Json.str "Error encountered during analysis")]

/-- The `serve` handler of `src/analyze-improved.ts`: wraps the pipeline. -/
def improvedHandler (env : Env) (req : AnalyzeRequest) : HandlerResult :=
  match improvedPipeline env req with
  | (call, Except.ok feedback) =>
    ⟨call, ⟨200, Json.obj
      [("feedback", feedback), ("latency_ms", Json.num (env.latency : Int))]⟩⟩
  | (call, Except.error msg) =>
    ⟨call, ⟨500, Json.obj
      [("error", Json.str msg), ("feedback", Json.obj (improvedErrorFields msg))]⟩⟩

/-- Modelled from the spec: the disclaimer-appending step of the Response
Normalizer. No handler under `src/` still contains it — `src/unnamed/part_004`
line 191 only records "Don\x27t add disclaimer anymore - removed per user
request" — so the step is reconstructed from spec 4.3: when the policy is
active and the narrative does not already contain the fixed disclaimer string
(substring-containment check), append it exactly once. The repository does not
record the disclaimer text, so it is a parameter. -/
def appendDisclaimer (disclaimer narrative : String) : String :=
  if disclaimer.data <:+: narrative.data then narrative
  else narrative ++ disclaimer

/-- `(a ++ b).data` unfolds to list append. -/
theorem str_data_append (a b : String) : (a ++ b).data = a.data ++ b.data := rfl

/-- A string whose character list is non-empty is not the empty string. -/
theorem str_ne_empty_of_data_ne_nil (s : String) (h : s.data ≠ []) : s ≠ "" :=
  fun he => h (by rw [he])

/-- Prepend a character to the first line of a line list. -/
def consHead (c : Char) : List (List Char) → List (List Char)
  | [] => [[c]]
  | l :: ls => (c :: l) :: ls

/-- Split a character list into its lines at newline characters (the line
structure a reader of the produced prompt sees). -/
def splitLines : List Char → List (List Char)
  | [] => [[]]
  | c :: cs =>
    if c = '\n' then [] :: splitLines cs else consHead c (splitLines cs)

/-- The lines of a string. -/
def linesOf (s : String) : List (List Char) := splitLines s.data

theorem consHead_ne_nil (c : Char) (ls : List (List Char)) :
    consHead c ls ≠ [] := by
  cases ls <;> simp [consHead]

theorem splitLines_ne_nil (cs : List Char) : splitLines cs ≠ [] := by
  induction cs with
  | nil => simp [splitLines]
  | cons c cs ih =>
    rw [splitLines]
    split
    · simp
    · exact consHead_ne_nil c _

theorem consHead_append (c : Char) (l m : List (List Char)) (h : l ≠ []) :
    consHead c (l ++ m) = consHead c l ++ m := by
  cases l with
  | nil => exact absurd rfl h
  | cons a as => rfl

/-- Splitting distributes over a newline separator. -/
theorem splitLines_append_newline (xs ys : List Char) :
    splitLines (xs ++ '\n' :: ys) = splitLines xs ++ splitLines ys := by
  induction xs with
  | nil => simp [splitLines]
  | cons c xs ih =>
    by_cases hc : c = '\n'
    · subst hc
      show splitLines ('\n' :: (xs ++ '\n' :: ys)) =
        splitLines ('\n' :: xs) ++ splitLines ys
      rw [splitLines, if_pos rfl, splitLines, if_pos rfl, ih]
      rfl
    · show splitLines (c :: (xs ++ '\n' :: ys)) =
        splitLines (c :: xs) ++ splitLines ys
      rw [splitLines, if_neg hc, splitLines, if_neg hc, ih,
        consHead_append c _ _ (splitLines_ne_nil xs)]

/-- A newline-free character list is a single line. -/
theorem splitLines_of_no_newline (l : List Char) (h : ('\n' : Char) ∉ l) :
    splitLines l = [l] := by
  induction l with
  | nil => rfl
  | cons c cs ih =>
    have hc : c ≠ '\n' := fun he => h (he ▸ List.mem_cons_self c cs)
    have hcs : ('\n' : Char) ∉ cs := fun hm => h (List.mem_cons_of_mem c hm)
    rw [splitLines, if_neg hc, ih hcs]
    rfl

/-- The lines of a `join("\n")` of newline-free strings are exactly those
strings. -/
theorem splitLines_joinNL (ls : List String)
    (h : ∀ l ∈ ls, ('\n' : Char) ∉ l.data) (hne : ls ≠ []) :
    splitLines (joinNL ls).data = ls.map String.data := by
  induction ls with
  | nil => exact absurd rfl hne
  | cons s rest ih =>
    cases rest with
    | nil =>
      have hs : ('\n' : Char) ∉ s.data := h s (List.mem_cons_self s [])
      simp [joinNL, splitLines_of_no_newline s.data hs]
    | cons s' rest' =>
      have hs : ('\n' : Char) ∉ s.data := h s (List.mem_cons_self s _)
      have hrest : ∀ l ∈ s' :: rest', ('\n' : Char) ∉ l.data :=
        fun l hl => h l (List.mem_cons_of_mem s hl)
      have hjoin : (joinNL (s :: s' :: rest')).data =
          s.data ++ '\n' :: (joinNL (s' :: rest')).data := by
        show ((s ++ "\n") ++ joinNL (s' :: rest')).data = _
        rw [str_data_append, str_data_append]
        simp
      rw [hjoin, splitLines_append_newline,
        splitLines_of_no_newline s.data hs, ih hrest (by simp)]
      rfl

/-- If a string decomposes as an arbitrary prefix, a newline, the bulleted
`join("\n")` recap of `memories`, a newline, and an arbitrary rest, then the
`- `-prefixed memories appear among its lines, contiguously and in order. -/
theorem bullet_lines_infix_of_shape (s : String) (A R : List Char)
    (ms : List String) (hms : ∀ m ∈ ms, ('\n' : Char) ∉ m.data)
    (hne : ms ≠ [])
    (hdata : s.data =
      A ++ '\n' :: ((joinNL (ms.map (fun m => "- " ++ m))).data ++ '\n' :: R)) :
    ms.map (fun m => ("- " ++ m).data) <:+: linesOf s := by
  have hpref : ∀ l ∈ ms.map (fun m => "- " ++ m), ('\n' : Char) ∉ l.data := by
    intro l hl
    rcases List.mem_map.mp hl with ⟨m, hm, rfl⟩
    rw [str_data_append]
    intro hmem
    rcases List.mem_append.mp hmem with h1 | h2
    · revert h1; decide
    · exact hms m hm h2
  have hjoin : splitLines (joinNL (ms.map (fun m => "- " ++ m))).data =
      ms.map (fun m => ("- " ++ m).data) := by
    rw [splitLines_joinNL _ hpref (by simpa using hne), List.map_map]
    rfl
  refine ⟨splitLines A, splitLines R, ?_⟩
  rw [linesOf, hdata, splitLines_append_newline, splitLines_append_newline,
    hjoin, List.append_assoc]

theorem hasKey_append_self (fields : List (String × Json)) (k : String)
    (v : Json) : hasKey (fields ++ [(k, v)]) k = true := by
  simp [hasKey]

theorem providerCalls_eq_one {h : HandlerResult}
    (hs : h.request.isSome = true) : providerCalls h = 1 := by
  rcases h with ⟨req?, resp⟩
  cases req? with
  | none => simp at hs
  | some o => rfl

theorem part004Handler_request (env : Env) (req : AnalyzeRequest) :
    (part004Handler env req).request = (part004Pipeline env req).1 := by
  rcases h : part004Pipeline env req with ⟨call, res⟩
  cases res <;> simp [part004Handler, h]

theorem improvedHandler_request (env : Env) (req : AnalyzeRequest) :
    (improvedHandler env req).request = (improvedPipeline env req).1 := by
  rcases h : improvedPipeline env req with ⟨call, res⟩
  cases res <;> simp [improvedHandler, h]

/-- A provider call outcome where the completion succeeded and parsed to a
well-formed object. -/
def sampleProviderOk : ProviderResult :=
  { ok := true, status := 200, errorText := "",
    rawContent := "\x7b\"narrative\":\"hi\",\"memory_hint\":null\x7d",
    parsed := some (Json.obj
      [("narrative", Json.str "hi"), ("memory_hint", Json.null)]) }

/-- A provider call outcome where the completion endpoint returned HTTP 500. -/
def providerFail : ProviderResult :=
  { ok := false, status := 500, errorText := "Internal Server Error",
    rawContent := "", parsed := none }

/-- A benign environment: API key configured, empty database, healthy
provider. -/
def sampleEnv : Env :=
  { hasApiKey := true, memTable := [], convUser := none, settingsRow := none,
    provider := sampleProviderOk, latency := 42 }

/-- Environment whose provider call fails with HTTP 500. -/
def envFail : Env :=
  { hasApiKey := true, memTable := [], convUser := none, settingsRow := none,
    provider := providerFail, latency := 7 }

/-- A request carrying an image and no text. -/
def reqWithImage : AnalyzeRequest :=
  ⟨["https://x/chart.png"], "", none, false, false⟩

/-- A request carrying text and no image. -/
def reqTextOnly : AnalyzeRequest :=
  ⟨[], "NQ breaking out", none, false, false⟩

/-- A request carrying neither image nor text. -/
def reqEmpty : AnalyzeRequest := ⟨[], "", none, false, false⟩

/-- A text request in detailed-analysis mode. -/
def reqContext : AnalyzeRequest := ⟨[], "NQ breaking out", none, true, false⟩

/-- Claim C1 (amended): in `src/analyze-improved.ts`, whenever normalization
completes without an exception and yields a JSON object — whether the raw
text parsed or the parse-failure fallback was synthesized — that object has a
`memory_hint` key. (As stated, the claim fails for the `part_004` orchestrator,
whose fallback omits the key and which never back-fills it — see the
counterexample — and a parsed `memory_hint` value is kept as-is, so it need
not be a string or null.) -/
theorem claim_C1_memory_hint_key_present (parsed : Option Json)
    (fields : List (String × Json))
    (h : improvedNormalize parsed = Except.ok (Json.obj fields)) :
    hasKey fields "memory_hint" = true := by
  cases parsed with
  | none =>
    have hf : improvedParseFallback = fields := by
      rw [show improvedNormalize none = Except.ok (Json.obj improvedParseFallback)
        from rfl] at h
      simpa using h
    rw [← hf]
    rfl
  | some j =>
    cases j with
    | obj gs =>
      cases hk : hasKey gs "memory_hint" with
      | true =>
        have hf : gs = fields := by simpa [improvedNormalize, hk] using h
        rw [← hf]
        exact hk
      | false =>
        have hf : gs ++ [("memory_hint", Json.str improvedMemoryHintDefault)]
            = fields := by simpa [improvedNormalize, hk] using h
        rw [← hf]
        exact hasKey_append_self gs _ _
    | arr es => simp [improvedNormalize] at h
    | null => simp [improvedNormalize] at h
    | bool b => simp [improvedNormalize] at h
    | num n => simp [improvedNormalize] at h
    | str s => simp [improvedNormalize] at h

theorem claim_C1_witness :
    hasKey [("narrative", Json.str "hi"), ("memory_hint", Json.null)]
      "memory_hint" = true :=
  claim_C1_memory_hint_key_present
    (some (Json.obj [("narrative", Json.str "hi"), ("memory_hint", Json.null)]))
    _ rfl

/-- Claim C1 counterexample: in `part_004`, a completion whose raw text fails
to parse is normalized to the fallback object, which has no `memory_hint` key
at all — the claim's "the key is never absent" is false for that
orchestrator. -/
theorem claim_C1_counterexample :
    part004Normalize "oops" none = Except.ok (Json.obj
      [("narrative", Json.str "oops"), ("confluences", Json.arr []),
       ("risks", Json.arr []),
       ("scenarios", Json.obj [("bull", Json.str ""), ("bear", Json.str ""),
         ("invalidation", Json.str "")]),
       ("checklist", Json.arr [])]) ∧
    hasKey
      [("narrative", Json.str "oops"), ("confluences", Json.arr []),
       ("risks", Json.arr []),
       ("scenarios", Json.obj [("bull", Json.str ""), ("bear", Json.str ""),
         ("invalidation", Json.str "")]),
       ("checklist", Json.arr [])] "memory_hint" = false :=
  ⟨rfl, rfl⟩

/-- Claim C4 (amended): neither normalizer throws on a completion whose raw
text fails strict JSON parsing (including the empty string). However the two
variants disagree with the claimed output: `src/analyze-improved.ts` always
substitutes the fixed trouble-formatting narrative — never the raw text
verbatim — together with a parsing-issue `memory_hint`, while `part_004` uses
the raw text verbatim as the narrative (which is empty for raw `""`, with no
apology fallback) and sets no `memory_hint` at all. -/
theorem claim_C4_parse_failure_fallbacks (rawContent : String) :
    improvedNormalize none = Except.ok (Json.obj improvedParseFallback) ∧
    part004Normalize rawContent none =
      Except.ok (Json.obj (part004ParseFallback rawContent)) ∧
    getField (part004ParseFallback rawContent) "narrative" =
      some (Json.str rawContent) ∧
    hasKey (part004ParseFallback rawContent) "memory_hint" = false ∧
    getField improvedParseFallback "narrative" = some (Json.str
      "I\x27m having trouble with response formatting. Please try again.") ∧
    getField improvedParseFallback "memory_hint" =
      some (Json.str "User experienced parsing issues with AI response") := by
  refine ⟨rfl, ?_, rfl, rfl, rfl, rfl⟩
  by_cases h : rawContent = ""
  · subst h; rfl
  · have hb : (rawContent != "") = true := by simpa using h
    simp [part004Normalize, part004ParseFallback, getField, jsTruthy, hb]

/-- Claim C4 counterexample: the claim as stated requires the parse-failure
narrative to be the raw text verbatim when non-empty; `analyze-improved.ts`
returns the fixed trouble-formatting string instead, even for the non-empty
unparsable raw text "hello". -/
theorem claim_C4_counterexample :
    improvedNormalize none = Except.ok (Json.obj improvedParseFallback) ∧
    getField improvedParseFallback "narrative" = some (Json.str
      "I\x27m having trouble with response formatting. Please try again.") ∧
    Json.str "I\x27m having trouble with response formatting. Please try again."
      ≠ Json.str "hello" :=
  ⟨rfl, rfl, fun h => absurd (Json.str.inj h) (by decide)⟩

/-- Claim C5 (amended): in `src/analyze-improved.ts` model selection is the
claimed two-way function of image presence (`gpt-4o` with images, `gpt-4o-mini`
without); in `part_004` the single fixed model `gpt-4.1-2025-04-14` is
requested regardless of image presence, so no lighter text-only variant
exists there. -/
theorem claim_C5_model_selection (imageUrls : List String) :
    (imageUrls ≠ [] → improvedModel imageUrls = "gpt-4o") ∧
    (imageUrls = [] → improvedModel imageUrls = "gpt-4o-mini") ∧
    part004Model = "gpt-4.1-2025-04-14" := by
  refine ⟨fun h => ?_, fun h => ?_, rfl⟩
  · cases imageUrls with
    | nil => exact absurd rfl h
    | cons u us => rfl
  · subst h; rfl

theorem claim_C5_witness :
    improvedModel ["https://x/y.png"] = "gpt-4o" ∧
    improvedModel [] = "gpt-4o-mini" ∧
    part004Model = "gpt-4.1-2025-04-14" :=
  ⟨(claim_C5_model_selection ["https://x/y.png"]).1 (by simp),
   (claim_C5_model_selection []).2.1 rfl,
   (claim_C5_model_selection []).2.2⟩

/-- Claim C5 counterexample: the `part_004` orchestrator requests exactly the
same model for a zero-image request as for an image request — the claimed
two-way branch (vision variant vs lighter text-only variant) does not exist
in that variant. -/
theorem claim_C5_counterexample :
    (part004Pipeline sampleEnv reqWithImage).1.map OutboundRequest.model =
      (part004Pipeline sampleEnv reqTextOnly).1.map OutboundRequest.model ∧
    (part004Pipeline sampleEnv reqTextOnly).1.map OutboundRequest.model =
      some "gpt-4.1-2025-04-14" :=
  ⟨rfl, rfl⟩

/-- Claim C7 (confirmed, modelled from the spec — the disclaimer-appending
code itself was removed from the repository's handlers): appending is guarded
by a containment check, so a narrative that already ends with the disclaimer
is returned unchanged, and normalizing twice yields exactly the result of
normalizing once. -/
theorem claim_C7_disclaimer_idempotent (disclaimer narrative : String) :
    (disclaimer.data <:+ narrative.data →
      appendDisclaimer disclaimer narrative = narrative) ∧
    appendDisclaimer disclaimer (appendDisclaimer disclaimer narrative) =
      appendDisclaimer disclaimer narrative := by
  constructor
  · intro h
    obtain ⟨t, ht⟩ := h
    rw [appendDisclaimer, if_pos ⟨t, [], by simp [ht]⟩]
  · by_cases h : disclaimer.data <:+: narrative.data
    · have e : appendDisclaimer disclaimer narrative = narrative := by
        rw [appendDisclaimer, if_pos h]
      rw [e, appendDisclaimer, if_pos h]
    · have e : appendDisclaimer disclaimer narrative =
          narrative ++ disclaimer := by
        rw [appendDisclaimer, if_neg h]
      have hs : disclaimer.data <:+: (narrative ++ disclaimer).data :=
        ⟨narrative.data, [], by simp [str_data_append]⟩
      rw [e, appendDisclaimer, if_pos hs]

theorem claim_C7_witness :
    appendDisclaimer " Not financial advice."
      "Size down here. Not financial advice." =
      "Size down here. Not financial advice." ∧
    appendDisclaimer " Not financial advice."
      (appendDisclaimer " Not financial advice." "Size down here.") =
      appendDisclaimer " Not financial advice." "Size down here." :=
  ⟨(claim_C7_disclaimer_idempotent _ _).1 ⟨("Size down here.").data, by decide⟩,
   (claim_C7_disclaimer_idempotent _ _).2⟩

/-- Claim C10: in `src/analyze-improved.ts`, whenever the request carries at
least one image URL, the outbound messages contain exactly the first URL —
every subsequent entry of `imageUrls` is dropped from the assembled messages
(and hence from the outbound request, which sends exactly these messages). -/
theorem claim_C10_only_first_image_sent (systemPrompt contextText u : String)
    (us : List String) :
    imagesOf (improvedMessages systemPrompt contextText (u :: us)) = [u] :=
  rfl

/-- Claim C2 (amended): for a request with both `imageUrls` and `contextText`
empty/absent, the `part_004` orchestrator fails fast — zero calls to the
completion provider, with the clear validation message — but the error is
surfaced through the single catch-all as HTTP 500, not a 4xx; and the
`analyze-improved.ts` orchestrator performs no such validation at all: it
calls the completion provider exactly once even for such a request. -/
theorem claim_C2_empty_request_validation (env : Env) (req : AnalyzeRequest)
    (himg : req.imageUrls = []) (hctx : req.contextText = "")
    (hkey : env.hasApiKey = true) :
    providerCalls (part004Handler env req) = 0 ∧
    (part004Handler env req).response.status = 500 ∧
    (part004Handler env req).response.body = Json.obj
      [("error", Json.str "Either imageUrls or contextText must be provided"),
       ("feedback", Json.obj part004ErrorFields)] ∧
    providerCalls (improvedHandler env req) = 1 := by
  have hp : part004Pipeline env req =
      (none, Except.error "Either imageUrls or contextText must be provided") := by
    simp [part004Pipeline, himg, hctx]
  have hcall : (improvedPipeline env req).1.isSome = true := by
    simp only [improvedPipeline, hkey, Bool.not_true, Bool.false_eq_true,
      if_false]
    cases hok : env.provider.ok <;> simp [hok]
  refine ⟨?_, ?_, ?_, ?_⟩
  · simp [part004Handler, hp, providerCalls]
  · simp [part004Handler, hp]
  · simp [part004Handler, hp]
  · exact providerCalls_eq_one (by rw [improvedHandler_request]; exact hcall)

theorem claim_C2_witness :
    providerCalls (part004Handler sampleEnv reqEmpty) = 0 ∧
    (part004Handler sampleEnv reqEmpty).response.status = 500 ∧
    (part004Handler sampleEnv reqEmpty).response.body = Json.obj
      [("error", Json.str "Either imageUrls or contextText must be provided"),
       ("feedback", Json.obj part004ErrorFields)] ∧
    providerCalls (improvedHandler sampleEnv reqEmpty) = 1 :=
  claim_C2_empty_request_validation sampleEnv reqEmpty rfl rfl rfl

/-- Claim C2 counterexample: on the empty request, `analyze-improved.ts`
makes one provider call (not zero), and `part_004` returns HTTP status 500
(the catch-all), not a 4xx — both halves of the claim fail as stated. -/
theorem claim_C2_counterexample :
    providerCalls (improvedHandler sampleEnv reqEmpty) = 1 ∧
    (part004Handler sampleEnv reqEmpty).response.status = 500 :=
  ⟨rfl, rfl⟩

theorem part004Normalize_error_ne_empty (rawContent : String)
    (parsed : Option Json) (msg : String)
    (h : part004Normalize rawContent parsed = Except.error msg) : msg ≠ "" := by
  cases parsed with
  | none =>
    cases hb : (rawContent != "") <;>
      simp [part004Normalize, part004ParseFallback, getField, jsTruthy, hb] at h
  | some j =>
    cases j with
    | obj gs =>
      cases ht : jsTruthy (getField gs "narrative") <;>
        simp [part004Normalize, ht] at h
    | arr es => simp [part004Normalize] at h
    | null =>
      simp [part004Normalize] at h
      subst h
      decide
    | bool b =>
      simp [part004Normalize] at h
      subst h
      decide
    | num n =>
      simp [part004Normalize] at h
      subst h
      decide
    | str s =>
      simp [part004Normalize] at h
      subst h
      decide

theorem improvedNormalize_error_ne_empty (parsed : Option Json) (msg : String)
    (h : improvedNormalize parsed = Except.error msg) : msg ≠ "" := by
  cases parsed with
  | none => simp [improvedNormalize, improvedParseFallback, hasKey] at h
  | some j =>
    cases j with
    | obj gs =>
      cases hk : hasKey gs "memory_hint" <;> simp [improvedNormalize, hk] at h
    | arr es => simp [improvedNormalize] at h
    | null =>
      simp [improvedNormalize] at h
      subst h
      decide
    | bool b =>
      simp [improvedNormalize] at h
      subst h
      decide
    | num n =>
      simp [improvedNormalize] at h
      subst h
      decide
    | str s =>
      simp [improvedNormalize] at h
      subst h
      decide

theorem part004Pipeline_error_ne_empty (env : Env) (req : AnalyzeRequest)
    (msg : String) (h : (part004Pipeline env req).2 = Except.error msg) :
    msg ≠ "" := by
  unfold part004Pipeline at h
  dsimp only [] at h
  split at h
  · simp only [Except.error.injEq] at h
    subst h
    decide
  · split at h
    · simp only [Except.error.injEq] at h
      subst h
      decide
    · split at h
      · simp only [Except.error.injEq] at h
        subst h
        apply str_ne_empty_of_data_ne_nil
        rw [str_data_append, str_data_append, str_data_append]
        exact List.append_ne_nil_of_left_ne_nil
          (List.append_ne_nil_of_left_ne_nil
            (List.append_ne_nil_of_left_ne_nil (by decide) _) _) _
      · exact part004Normalize_error_ne_empty _ _ _ h

theorem improvedPipeline_error_ne_empty (env : Env) (req : AnalyzeRequest)
    (msg : String) (h : (improvedPipeline env req).2 = Except.error msg) :
    msg ≠ "" := by
  unfold improvedPipeline at h
  dsimp only [] at h
  split at h
  · simp only [Except.error.injEq] at h
    subst h
    decide
  · split at h
    · simp only [Except.error.injEq] at h
      subst h
      apply str_ne_empty_of_data_ne_nil
      rw [str_data_append]
      exact List.append_ne_nil_of_left_ne_nil (by decide) _
    · exact improvedNormalize_error_ne_empty _ _ h

/-- Claim C6 (amended): every failure raised in either orchestrator funnels
into its single catch-all, which returns status 500 (non-2xx) with a body of
exactly the shape `\x7berror, feedback\x7d` and a non-empty `error` string.
The safe-default feedback's narrative, however, is the fixed apology string
only in `part_004`; in `analyze-improved.ts` it is "Error occurred: " followed
by the error message. -/
theorem claim_C6_error_envelope :
    (∀ env req msg, (part004Pipeline env req).2 = Except.error msg →
      msg ≠ "" ∧
      (part004Handler env req).response.status = 500 ∧
      (part004Handler env req).response.body = Json.obj
        [("error", Json.str msg), ("feedback", Json.obj part004ErrorFields)] ∧
      getField part004ErrorFields "narrative" =
        some (Json.str part004ApologyNarrative)) ∧
    (∀ env req msg, (improvedPipeline env req).2 = Except.error msg →
      msg ≠ "" ∧
      (improvedHandler env req).response.status = 500 ∧
      (improvedHandler env req).response.body = Json.obj
        [("error", Json.str msg),
         ("feedback", Json.obj (improvedErrorFields msg))] ∧
      getField (improvedErrorFields msg) "narrative" =
        some (Json.str ("Error occurred: " ++ msg))) := by
  constructor
  · intro env req msg h
    rcases hp : part004Pipeline env req with ⟨call, res⟩
    rw [hp] at h
    dsimp only [] at h
    subst h
    refine ⟨part004Pipeline_error_ne_empty env req msg (by rw [hp]), ?_, ?_, rfl⟩
    · simp [part004Handler, hp]
    · simp [part004Handler, hp]
  · intro env req msg h
    rcases hp : improvedPipeline env req with ⟨call, res⟩
    rw [hp] at h
    dsimp only [] at h
    subst h
    refine ⟨improvedPipeline_error_ne_empty env req msg (by rw [hp]), ?_, ?_, rfl⟩
    · simp [improvedHandler, hp]
    · simp [improvedHandler, hp]

theorem claim_C6_witness :
    ("OpenAI API error: 500 Internal Server Error" ≠ "" ∧
     (part004Handler envFail reqContext).response.status = 500 ∧
     (part004Handler envFail reqContext).response.body = Json.obj
       [("error", Json.str "OpenAI API error: 500 Internal Server Error"),
        ("feedback", Json.obj part004ErrorFields)] ∧
     getField part004ErrorFields "narrative" =
       some (Json.str part004ApologyNarrative)) ∧
    ("OpenAI API error: 500" ≠ "" ∧
     (improvedHandler envFail reqContext).response.status = 500 ∧
     (improvedHandler envFail reqContext).response.body = Json.obj
       [("error", Json.str "OpenAI API error: 500"),
        ("feedback", Json.obj (improvedErrorFields "OpenAI API error: 500"))] ∧
     getField (improvedErrorFields "OpenAI API error: 500") "narrative" =
       some (Json.str ("Error occurred: " ++ "OpenAI API error: 500"))) :=
  ⟨claim_C6_error_envelope.1 envFail reqContext _ rfl,
   claim_C6_error_envelope.2 envFail reqContext _ rfl⟩

/-- Claim C6 counterexample: when the provider returns HTTP 500, the
`analyze-improved.ts` catch-all's feedback narrative is
"Error occurred: OpenAI API error: 500" — not the fixed apology string the
claim requires. -/
theorem claim_C6_counterexample :
    (improvedHandler envFail reqContext).response.body = Json.obj
      [("error", Json.str "OpenAI API error: 500"),
       ("feedback", Json.obj
         [("narrative", Json.str "Error occurred: OpenAI API error: 500"),
          ("memory_hint", Json.str "Error encountered during analysis")])] ∧
    "Error occurred: OpenAI API error: 500" ≠ part004ApologyNarrative :=
  ⟨rfl, by decide⟩

/-- Claim C3: in the `part_004` orchestrator the memories query has no filter
on the requesting user, so two memory-enabled requests made on behalf of
different users (different conversation owners) receive exactly the same
memory list and hence the same system prompt; any row among the 10 globally
most recent — whoever owns it — is included in the list used for the other
user's prompt. -/
theorem claim_C3_cross_user_memories (envA envB : Env)
    (reqA reqB : AnalyzeRequest) (uA uB : String)
    (hmem : envA.memTable = envB.memTable)
    (hA : envA.convUser = some uA) (hB : envB.convUser = some uB)
    (hdiff : uA ≠ uB)
    (hmA : reqA.useMemory = true) (hmB : reqB.useMemory = true)
    (hcA : optTruthy reqA.conversationId = true)
    (hcB : optTruthy reqB.conversationId = true)
    (hra : reqA.requestAnalysis = reqB.requestAnalysis) :
    part004SystemPromptOf envA reqA = part004SystemPromptOf envB reqB ∧
    ∀ r ∈ part004MemoriesQuery envA.memTable, r.user_id = uA →
      part004FormatMemory r ∈
        part004LoadMemories envB.memTable reqB.useMemory reqB.conversationId := by
  constructor
  · rw [part004SystemPromptOf, part004SystemPromptOf, part004LoadMemories,
      part004LoadMemories, hmem, hmA, hmB, hcA, hcB, hra]
  · intro r hr _hu
    rw [part004LoadMemories, hmB, hcB]
    simp only [Bool.and_self, if_pos]
    exact List.mem_map_of_mem part004FormatMemory (hmem ▸ hr)

/-- A memory row owned by user `alice-id`. -/
def aliceRow : MemoryRow :=
  ⟨"alice-id", some "pattern", some "Often overtrades NQ after losses", 3⟩

/-- Environment for a conversation owned by `alice-id`, with Alice's memory
row stored. -/
def envAlice : Env :=
  { hasApiKey := true, memTable := [aliceRow], convUser := some "alice-id",
    settingsRow := none, provider := sampleProviderOk, latency := 0 }

/-- Environment for a conversation owned by the different user `bob-id`, over
the same memories table. -/
def envBob : Env :=
  { hasApiKey := true, memTable := [aliceRow], convUser := some "bob-id",
    settingsRow := none, provider := sampleProviderOk, latency := 0 }

/-- Alice's memory-enabled request. -/
def reqAliceChat : AnalyzeRequest :=
  ⟨[], "Review my trade", some "conv-alice", false, true⟩

/-- Bob's memory-enabled request. -/
def reqBobChat : AnalyzeRequest :=
  ⟨[], "What do you think?", some "conv-bob", false, true⟩

theorem claim_C3_witness :
    part004SystemPromptOf envAlice reqAliceChat =
      part004SystemPromptOf envBob reqBobChat ∧
    part004FormatMemory aliceRow ∈
      part004LoadMemories envBob.memTable reqBobChat.useMemory
        reqBobChat.conversationId :=
  ⟨(claim_C3_cross_user_memories envAlice envBob reqAliceChat reqBobChat
      "alice-id" "bob-id" rfl rfl rfl (by decide) rfl rfl rfl rfl rfl).1,
   (claim_C3_cross_user_memories envAlice envBob reqAliceChat reqBobChat
      "alice-id" "bob-id" rfl rfl rfl (by decide) rfl rfl rfl rfl rfl).2
     aliceRow (by decide) rfl⟩

theorem str_data_empty : ("" : String).data = [] := rfl

/-- Claim C9 (amended): the `analyze-improved.ts` prompt builder never fails
on an absent settings row — it simply appends no personalization sentence in
that case. The neutral defaults "intermediate", "day trading" and "moderate"
are applied per-field (via `||`) only when a settings row is present with
missing/empty columns; an absent row produces no defaulted sentence at all. -/
theorem claim_C9_settings_personalization (s : SettingsRow)
    (memories : List String) (requestAnalysis : Bool) :
    ∃ rest : String,
      improvedSystemPrompt none memories requestAnalysis =
        improvedCoachIntro ++ rest ∧
      improvedSystemPrompt (some s) memories requestAnalysis =
        improvedCoachIntro ++
          ("You\x27re working with a " ++
            jsOrStr s.trading_experience "intermediate" ++
            " trader who prefers " ++ jsOrStr s.trading_style "day trading" ++
            " with " ++ jsOrStr s.risk_level "moderate" ++
            " risk tolerance. ") ++ rest := by
  refine ⟨(if memories.length > 0 then improvedMemoryRecap memories else "") ++
    (if requestAnalysis then improvedDetailedSchema else improvedQuickSchema) ++
    improvedCriticalSuffix, ?_, ?_⟩ <;>
  · apply String.ext
    cases requestAnalysis <;> by_cases hm : memories.length > 0 <;>
      simp [improvedSystemPrompt, improvedPersonaPart, improvedSettingsSentence,
        hm, str_data_append, str_data_empty, List.append_assoc]

set_option maxRecDepth 40000 in
/-- Claim C9 counterexample: with no settings row, the produced system prompt
does not contain the default descriptor "intermediate" anywhere — the claimed
fallback to neutral defaults does not happen for an absent settings object. -/
theorem claim_C9_counterexample :
    ¬ (("intermediate" : String).data <:+:
        (improvedSystemPrompt none [] false).data) := by decide

/-- Claim C8: the memory notes supplied to either prompt builder appear in the
produced system prompt in exactly the order given, contiguously, each on its
own line and each prefixed with `- ` (stated for notes that are single lines,
i.e. contain no newline themselves — a note containing a newline necessarily
spans several prompt lines). Proved for `buildSystemPrompt`
(`part_004` / `supabase/functions/analyze/index.ts`) and for the inline recap
of `analyze-improved.ts`. -/
theorem claim_C8_memory_lines (memories : List String)
    (requestAnalysis : Bool) (userSettings : Option SettingsRow)
    (hms : ∀ m ∈ memories, ('\n' : Char) ∉ m.data) :
    memories.map (fun m => ("- " ++ m).data) <:+:
      linesOf (buildSystemPrompt memories requestAnalysis) ∧
    memories.map (fun m => ("- " ++ m).data) <:+:
      linesOf (improvedSystemPrompt userSettings memories requestAnalysis) := by
  cases memories with
  | nil =>
    exact ⟨⟨[], linesOf (buildSystemPrompt [] requestAnalysis), by simp⟩,
      ⟨[], linesOf (improvedSystemPrompt userSettings [] requestAnalysis),
        by simp⟩⟩
  | cons m0 ms' =>
    have hlen : (m0 :: ms').length > 0 := Nat.succ_pos _
    have hhdr : memoryRecapHeader.data =
        memoryRecapHeader.data.dropLast ++ ['\n'] := by decide
    constructor
    · cases requestAnalysis
      · refine bullet_lines_infix_of_shape _
          (quickBasePrompt.data ++ memoryRecapHeader.data.dropLast)
          quickSchemaPrompt.data.tail _ hms (by simp) ?_
        have e : buildSystemPrompt (m0 :: ms') false =
            (quickBasePrompt ++ (memoryRecapHeader ++
              joinNL ((m0 :: ms').map (fun m => "- " ++ m)))) ++
              quickSchemaPrompt := by
          simp [buildSystemPrompt, memoryRecap, hlen]
        rw [e]
        simp only [str_data_append]
        conv_lhs => rw [hhdr, show quickSchemaPrompt.data =
          '\n' :: quickSchemaPrompt.data.tail from rfl]
        simp [List.append_assoc]
      · refine bullet_lines_infix_of_shape _
          (analysisBasePrompt.data ++ memoryRecapHeader.data.dropLast)
          analysisSchemaPrompt.data.tail _ hms (by simp) ?_
        have e : buildSystemPrompt (m0 :: ms') true =
            (analysisBasePrompt ++ (memoryRecapHeader ++
              joinNL ((m0 :: ms').map (fun m => "- " ++ m)))) ++
              analysisSchemaPrompt := by
          simp [buildSystemPrompt, memoryRecap, hlen]
        rw [e]
        simp only [str_data_append]
        conv_lhs => rw [hhdr, show analysisSchemaPrompt.data =
          '\n' :: analysisSchemaPrompt.data.tail from rfl]
        simp [List.append_assoc]
    · cases requestAnalysis
      · refine bullet_lines_infix_of_shape _
          ((improvedPersonaPart userSettings).data ++
            ("\n\nWhat you remember about this trader:\n" : String).data.dropLast)
          ('\n' :: (improvedQuickSchema.data ++ improvedCriticalSuffix.data))
          _ hms (by simp) ?_
        have e : improvedSystemPrompt userSettings (m0 :: ms') false =
            ((improvedPersonaPart userSettings ++
              (("\n\nWhat you remember about this trader:\n" ++
                joinNL ((m0 :: ms').map (fun m => "- " ++ m))) ++ "\n\n")) ++
              improvedQuickSchema) ++ improvedCriticalSuffix := by
          simp [improvedSystemPrompt, improvedMemoryRecap, hlen]
        rw [e]
        simp only [str_data_append]
        simp [List.append_assoc]
      · refine bullet_lines_infix_of_shape _
          ((improvedPersonaPart userSettings).data ++
            ("\n\nWhat you remember about this trader:\n" : String).data.dropLast)
          ('\n' :: (improvedDetailedSchema.data ++ improvedCriticalSuffix.data))
          _ hms (by simp) ?_
        have e : improvedSystemPrompt userSettings (m0 :: ms') true =
            ((improvedPersonaPart userSettings ++
              (("\n\nWhat you remember about this trader:\n" ++
                joinNL ((m0 :: ms').map (fun m => "- " ++ m))) ++ "\n\n")) ++
              improvedDetailedSchema) ++ improvedCriticalSuffix := by
          simp [improvedSystemPrompt, improvedMemoryRecap, hlen]
        rw [e]
        simp only [str_data_append]
        simp [List.append_assoc]

theorem claim_C8_witness :
    (∀ m ∈ (["Prefers scalping NQ", "Avoids overnight holds"] : List String),
      ('\n' : Char) ∉ m.data) ∧
    ((["Prefers scalping NQ", "Avoids overnight holds"] : List String).map
      (fun m => ("- " ++ m).data) <:+:
      linesOf (buildSystemPrompt
        ["Prefers scalping NQ", "Avoids overnight holds"] true)) ∧
    ((["Prefers scalping NQ", "Avoids overnight holds"] : List String).map
      (fun m => ("- " ++ m).data) <:+:
      linesOf (improvedSystemPrompt none
        ["Prefers scalping NQ", "Avoids overnight holds"] true)) :=
  ⟨by decide,
   (claim_C8_memory_lines _ true none (by decide)).1,
   (claim_C8_memory_lines _ true none (by decide)).2⟩
